import Mathlib

/-!
Verification of the multi-network blockchain gateway
(`src/services/blockchainService.js`).

The JavaScript service is shallowly embedded as follows.

* The static registry objects `this.networks` and `this.providers` become
  records with one field per literal key of the object; JavaScript property
  access `obj[key]` becomes an exact string match on those literal keys.
* A live `ethers.JsonRpcProvider` is identified by which network it was
  built for (`ProviderId`); two lookups return the same connection object
  exactly when they return the same `ProviderId`.
* Upstream RPC behaviour is an oracle (`Behavior`): for each provider it
  fixes the outcome and the latency of every remote call the service can
  issue.  `async` methods are embedded as functions returning `Out α`,
  which records the settled value (`res`, with `Except String` for thrown
  `Error(message)`), the list of upstream calls issued (`trace`), the
  event-loop latency (`elapsed`: sequential `await`s add latencies,
  `Promise.all` takes their maximum), everything written to the console
  (`log`), and the service state after the call (`post`).
* JavaScript `bigint` values (balances, gas, fees) are embedded as `Nat`;
  `toString()` on them and the exact-decimal conversion `ethers.formatEther`
  are embedded as executable decimal renderers below.
-/

/-- JavaScript `String.prototype.toLowerCase`, character by character.  For
the ASCII registry keys and inputs considered here this agrees with the
JavaScript function. -/
def jsToLowerCase (s : String) : String := String.mk (s.data.map Char.toLower)

/-- JavaScript `a || b` on strings: the empty string is the only falsy
string, so it is replaced by the fallback. -/
def jsOr (s d : String) : String := if s = "" then d else s

/-- One entry of `this.networks` (source lines 6-20). -/
structure NetworkProfile where
  name : String
  rpcUrl : String
  blockExplorer : String
deriving DecidableEq

/-- The object literal `this.networks` with its three fields
(source lines 5-21).  The third key is spelled `polygonMumbai`, in camel
case, exactly as in the source. -/
structure Networks where
  ethereum : NetworkProfile
  polygon : NetworkProfile
  polygonMumbai : NetworkProfile
deriving DecidableEq

/-- Identity of a `new ethers.JsonRpcProvider(...)` connection object: the
constructor builds exactly one per network (source lines 24-28), so a
connection object is determined by the network it was created for. -/
inductive ProviderId where
  | ethereum
  | polygon
  | polygonMumbai
deriving DecidableEq

/-- The object literal `this.providers` with its three fields
(source lines 24-28). -/
structure Providers where
  ethereum : ProviderId
  polygon : ProviderId
  polygonMumbai : ProviderId
deriving DecidableEq

/-- JavaScript property access `this.networks[key]`: exact match against the
literal keys of the object, `undefined` (here `none`) otherwise. -/
def networksGet (ns : Networks) (key : String) : Option NetworkProfile :=
  if key = "ethereum" then some ns.ethereum
  else if key = "polygon" then some ns.polygon
  else if key = "polygonMumbai" then some ns.polygonMumbai
  else none

/-- JavaScript property access `this.providers[key]`. -/
def providersGet (ps : Providers) (key : String) : Option ProviderId :=
  if key = "ethereum" then some ps.ethereum
  else if key = "polygon" then some ps.polygon
  else if key = "polygonMumbai" then some ps.polygonMumbai
  else none

/-- The instance state set up by the `BlockchainService` constructor
(source lines 4-32): the network registry, the eagerly created providers,
and the default network key. -/
structure BlockchainService where
  networks : Networks
  providers : Providers
  defaultNetwork : String
deriving DecidableEq

/-- The environment variables the constructor reads (source lines 8, 13, 18). -/
structure Env where
  ETHEREUM_RPC_URL : Option String
  POLYGON_RPC_URL : Option String
  POLYGON_TESTNET_RPC_URL : Option String

/-- No RPC-URL overrides configured. -/
def Env.empty : Env := ⟨none, none, none⟩

/-- The `BlockchainService` constructor (source lines 4-32). -/
def mkBlockchainService (env : Env) : BlockchainService :=
  { networks :=
      { ethereum :=
          { name := "Ethereum Mainnet"
            rpcUrl := env.ETHEREUM_RPC_URL.getD "https://mainnet.infura.io/v3/YOUR_INFURA_PROJECT_ID"
            blockExplorer := "https://etherscan.io" }
        polygon :=
          { name := "Polygon Mainnet"
            rpcUrl := env.POLYGON_RPC_URL.getD "https://polygon-rpc.com"
            blockExplorer := "https://polygonscan.com" }
        polygonMumbai :=
          { name := "Polygon Mumbai"
            rpcUrl := env.POLYGON_TESTNET_RPC_URL.getD "https://rpc-mumbai.maticvigil.com"
            blockExplorer := "https://mumbai.polygonscan.com" } }
    providers :=
      { ethereum := ProviderId.ethereum
        polygon := ProviderId.polygon
        polygonMumbai := ProviderId.polygonMumbai }
    defaultNetwork := "polygon" }

/-- Caller-supplied transaction request, passed opaquely to the network. -/
abbrev Tx := String

/-- The object returned by `provider.getFeeData()`: each field is nullable. -/
structure FeeData where
  gasPrice : Option Nat
  maxFeePerGas : Option Nat
  maxPriorityFeePerGas : Option Nat
deriving DecidableEq

/-- Behaviour of `txResponse.wait()`: it either settles with a result, or it
never resolves at all. -/
inductive WaitSpec where
  | resolves (receiptBlock : Except String Nat)
  | never

/-- The response object returned by `wallet.sendTransaction(tx)`: the
transaction hash together with the behaviour of its `wait()` method. -/
structure TxResponse where
  hash : String
  waitSpec : WaitSpec

/-- One upstream RPC call issued through a provider. -/
inductive Call where
  | getBlockNumber (p : ProviderId)
  | getFeeData (p : ProviderId)
  | getBalance (p : ProviderId) (address : String)
  | estimateGas (p : ProviderId) (tx : Tx)
  | sendTransaction (p : ProviderId) (tx : Tx)
  | waitForTx (hash : String)
deriving DecidableEq

/-- Oracle for one provider: outcome and latency of each remote call. -/
structure ProviderBehavior where
  blockNumber : Except String Nat
  blockNumberDelay : Nat
  feeData : Except String FeeData
  feeDataDelay : Nat
  balanceOf : String → Except String Nat
  balanceDelay : Nat
  estimateGasFor : Tx → Except String Nat
  estimateGasDelay : Nat
  sendTx : Tx → Except String TxResponse
  sendDelay : Nat

/-- Oracle for the whole upstream world, plus the key validation performed
by the `ethers.Wallet` constructor (a local library check, not a network
call). -/
structure Behavior where
  pb : ProviderId → ProviderBehavior
  keyValid : String → Bool

/-- Result of running one (possibly `async`) service method: settled value,
upstream calls issued, event-loop latency, console output, and the service
state after the call. -/
structure Out (α : Type) where
  res : Except String α
  trace : List Call
  elapsed : Nat
  log : List String
  post : BlockchainService

/-- Returning a value without touching the network. -/
def Out.pure (svc : BlockchainService) (a : α) : Out α :=
  { res := Except.ok a, trace := [], elapsed := 0, log := [], post := svc }

/-- `throw new Error(e)` without touching the network. -/
def Out.throw (svc : BlockchainService) (e : String) : Out α :=
  { res := Except.error e, trace := [], elapsed := 0, log := [], post := svc }

/-- One awaited upstream RPC call with the outcome and latency the oracle
assigns to it. -/
def rpc (svc : BlockchainService) (c : Call) (r : Except String α) (d : Nat) : Out α :=
  { res := r, trace := [c], elapsed := d, log := [], post := svc }

/-- Sequential composition: `await` the first step; on success continue, on
a thrown error stop and propagate it.  Latencies add up. -/
def Out.andThen (o : Out α) (f : α → Out β) : Out β :=
  match o.res with
  | Except.error e =>
      { res := Except.error e, trace := o.trace, elapsed := o.elapsed
        log := o.log, post := o.post }
  | Except.ok a =>
      let o2 := f a
      { res := o2.res, trace := o.trace ++ o2.trace, elapsed := o.elapsed + o2.elapsed
        log := o.log ++ o2.log, post := o2.post }

/-- `Promise.all([a, b])`: both calls are issued at once, the results are
joined, and the joint latency is the maximum of the two latencies. -/
def par2 (a : Out α) (b : Out β) : Out (α × β) :=
  { res :=
      match a.res, b.res with
      | Except.ok x, Except.ok y => Except.ok (x, y)
      | Except.error e, _ => Except.error e
      | _, Except.error e => Except.error e
    trace := a.trace ++ b.trace
    elapsed := max a.elapsed b.elapsed
    log := a.log ++ b.log
    post := b.post }

/-- `try { ... } catch (error) { ... }` around a computation. -/
def Out.tryCatch (o : Out α) (handler : String → Out α) : Out α :=
  match o.res with
  | Except.ok _ => o
  | Except.error e =>
      let h := handler e
      { res := h.res, trace := o.trace ++ h.trace, elapsed := o.elapsed + h.elapsed
        log := o.log ++ h.log, post := h.post }

/-- `getProvider(networkName = this.defaultNetwork)` (source lines 35-40).
`none` is an omitted argument (JavaScript default parameter); the body then
evaluates `(networkName || this.defaultNetwork).toLowerCase()` and looks the
key up in `this.providers`. -/
def getProvider (svc : BlockchainService) (networkName : Option String) :
    Except String ProviderId :=
  let nn := networkName.getD svc.defaultNetwork
  let key := jsToLowerCase (jsOr nn svc.defaultNetwork)
  match providersGet svc.providers key with
  | some provider => Except.ok provider
  | none => Except.error ("Network " ++ nn ++ " not supported")

/-- `this.getProvider(...)` viewed as a step of an `async` method: a
successful lookup yields the provider, a failed one throws. -/
def getProviderOut (svc : BlockchainService) (networkName : Option String) :
    Out ProviderId :=
  match getProvider svc networkName with
  | Except.ok p => Out.pure svc p
  | Except.error e => Out.throw svc e

/-- The object returned by `getNetworkStatus`: always `status` and
`network`; `latestBlock` only on the online path, `error` only on the
caught-failure path. -/
structure NetworkStatusResult where
  status : String
  network : NetworkProfile
  latestBlock : Option Nat
  error : Option String
deriving DecidableEq

/-- `getNetworkStatus(networkName = this.defaultNetwork)`
(source lines 42-53).  The registry check and its throw happen before the
`try` block; the provider lookup and the block-number call happen inside
it, and any error they throw is caught and converted into a status
record. -/
def getNetworkStatus (svc : BlockchainService) (networkName : Option String)
    (b : Behavior) : Out NetworkStatusResult :=
  let nn := networkName.getD svc.defaultNetwork
  let key := jsToLowerCase nn
  match networksGet svc.networks key with
  | none => Out.throw svc ("Network " ++ nn ++ " not supported")
  | some network =>
      Out.tryCatch
        ((getProviderOut svc (some nn)).andThen fun provider =>
          (rpc svc (Call.getBlockNumber provider) (b.pb provider).blockNumber
              (b.pb provider).blockNumberDelay).andThen fun bn =>
            Out.pure svc
              { status := "online", network := network
                latestBlock := some bn, error := none })
        (fun e =>
          Out.pure svc
            { status := "error", network := network
              latestBlock := none, error := some e })

/-- The character of one decimal digit. -/
def digitChar (d : Nat) : Char := Char.ofNat (48 + d)

/-- Little-endian decimal digits of `n`, no leading zeros, driven by fuel so
that it computes by structural recursion.  With fuel at least the digit
count this is the digit expansion JavaScript uses for `bigint.toString()`. -/
def toDigitsRev : Nat → Nat → List Nat
  | 0, _ => []
  | fuel + 1, n => if n = 0 then [] else n % 10 :: toDigitsRev fuel (n / 10)

/-- JavaScript `bigint.toString()` for a non-negative value: plain decimal,
`"0"` for zero. -/
def natToString (n : Nat) : String :=
  if n = 0 then "0" else String.mk ((toDigitsRev n n).reverse.map digitChar)

/-- Exactly `fuel` little-endian decimal digits of `n`, zero padded: the
fraction part of a fixed-point rendering before trimming. -/
def toPaddedDigitsRev : Nat → Nat → List Nat
  | 0, _ => []
  | fuel + 1, n => n % 10 :: toPaddedDigitsRev fuel (n / 10)

/-- Trailing-zero trimming of a fraction given little endian: drop the
trailing zeros of the printed fraction but always keep at least one digit,
as `ethers` fixed-number printing does (`"1.0"`, not `"1."`). -/
def trimTrailingZerosLE (l : List Nat) : List Nat :=
  if (l.dropWhile (· == 0)).isEmpty then [0] else l.dropWhile (· == 0)

/-- `ethers.formatEther(value)` for a non-negative `bigint`: exact decimal
at unit scale 18, integer part with no leading zeros, fraction zero-padded
to 18 digits and then trailing-trimmed down to at least one digit. -/
def formatEther (n : Nat) : String :=
  natToString (n / 10 ^ 18)
    ++ "."
    ++ String.mk ((trimTrailingZerosLE (toPaddedDigitsRev 18 (n % 10 ^ 18))).reverse.map digitChar)

/-- The object returned by `getWalletBalance` (source lines 66-71). -/
structure BalanceResult where
  address : String
  network : String
  balanceWei : String
  balanceEth : String
deriving DecidableEq

/-- `getWalletBalance(address, networkName = this.defaultNetwork)`
(source lines 62-72): resolve the provider, await `getBalance`, convert
with `formatEther`, and read the display name from
`this.networks[networkName.toLowerCase()]` (a `TypeError` if that registry
entry is absent, since the code dereferences `.name` without a check). -/
def getWalletBalance (svc : BlockchainService) (address : String)
    (networkName : Option String) (b : Behavior) : Out BalanceResult :=
  let nn := networkName.getD svc.defaultNetwork
  (getProviderOut svc (some nn)).andThen fun provider =>
    (rpc svc (Call.getBalance provider address) ((b.pb provider).balanceOf address)
        (b.pb provider).balanceDelay).andThen fun balanceWei =>
      match networksGet svc.networks (jsToLowerCase nn) with
      | none => Out.throw svc "TypeError: cannot read name of undefined"
      | some network =>
          Out.pure svc
            { address := address, network := network.name
              balanceWei := natToString balanceWei
              balanceEth := formatEther balanceWei }

/-- The object returned by `estimateGasCost` (source lines 85-89). -/
structure GasCostResult where
  gas : String
  maxFeePerGas : Option String
  maxPriorityFeePerGas : Option String
deriving DecidableEq

/-- `estimateGasCost(tx, networkName = this.defaultNetwork)`
(source lines 81-90): resolve the provider, `await provider.estimateGas(tx)`,
then `await provider.getFeeData()` - the two calls are sequential in the
source, the second is only issued after the first settles.  The nullable
fee fields (`feeData.maxFeePerGas?.toString() || null`) become `Option.map`:
a present `bigint` always prints to a truthy string, so the `|| null` only
fires for an absent field. -/
def estimateGasCost (svc : BlockchainService) (tx : Tx)
    (networkName : Option String) (b : Behavior) : Out GasCostResult :=
  let nn := networkName.getD svc.defaultNetwork
  (getProviderOut svc (some nn)).andThen fun provider =>
    (rpc svc (Call.estimateGas provider tx) ((b.pb provider).estimateGasFor tx)
        (b.pb provider).estimateGasDelay).andThen fun gas =>
      (rpc svc (Call.getFeeData provider) (b.pb provider).feeData
          (b.pb provider).feeDataDelay).andThen fun feeData =>
        Out.pure svc
          { gas := natToString gas
            maxFeePerGas := feeData.maxFeePerGas.map natToString
            maxPriorityFeePerGas := feeData.maxPriorityFeePerGas.map natToString }

/-- The `ethers.Wallet` object built by `createWallet`: the signing key
bound to one resolved provider.  It is returned to the caller, never stored
in the service. -/
structure Wallet where
  privateKey : String
  provider : ProviderId
deriving DecidableEq

/-- `createWallet(privateKey, networkName = this.defaultNetwork)`
(source lines 93-96): resolve the provider and construct
`new ethers.Wallet(privateKey, provider)`; the constructor validates the
key material locally and throws on a malformed key. -/
def createWallet (svc : BlockchainService) (privateKey : String)
    (networkName : Option String) (b : Behavior) : Out Wallet :=
  let nn := networkName.getD svc.defaultNetwork
  (getProviderOut svc (some nn)).andThen fun provider =>
    if b.keyValid privateKey then
      Out.pure svc { privateKey := privateKey, provider := provider }
    else Out.throw svc "invalid private key"

/-- The handle returned by `sendTransaction` (source line 106): the hash,
plus the captured `wait` closure, embedded by the behaviour the closure
would have if invoked. -/
structure TxHandle where
  hash : String
  waitSpec : WaitSpec

/-- Invoking the `wait` member of a returned handle: a separate operation;
`none` when the underlying `txResponse.wait()` never resolves. -/
def TxHandle.invokeWait (svc : BlockchainService) (h : TxHandle) : Option (Out Nat) :=
  match h.waitSpec with
  | WaitSpec.resolves r =>
      some { res := r, trace := [Call.waitForTx h.hash], elapsed := 0, log := [], post := svc }
  | WaitSpec.never => none

/-- `sendTransaction(tx, privateKey, networkName = this.defaultNetwork)`
(source lines 103-107): build the wallet, await the submission, and return
`{ hash, wait }` where `wait` wraps `txResponse.wait()` without invoking
it. -/
def sendTransaction (svc : BlockchainService) (tx : Tx) (privateKey : String)
    (networkName : Option String) (b : Behavior) : Out TxHandle :=
  (createWallet svc privateKey networkName b).andThen fun wallet =>
    (rpc svc (Call.sendTransaction wallet.provider tx) ((b.pb wallet.provider).sendTx tx)
        (b.pb wallet.provider).sendDelay).andThen fun txResponse =>
      Out.pure svc { hash := txResponse.hash, waitSpec := txResponse.waitSpec }

/-- `mintCropNFT(crop, recipient, networkName = this.defaultNetwork)`
(source lines 110-114): unconditional stub. -/
def mintCropNFT (svc : BlockchainService) (crop recipient : String)
    (networkName : Option String) (b : Behavior) : Out Unit :=
  Out.throw svc "mintCropNFT not implemented: deploy and wire NFT contract"

/-- `getNFTDetails(tokenId, networkName = this.defaultNetwork)`
(source lines 116-119): unconditional stub. -/
def getNFTDetails (svc : BlockchainService) (tokenId : String)
    (networkName : Option String) (b : Behavior) : Out Unit :=
  Out.throw svc "getNFTDetails not implemented: deploy and wire NFT contract"

/-- `transferNFT(fromAddress, toAddress, tokenId, networkName = ...)`
(source lines 121-124): unconditional stub. -/
def transferNFT (svc : BlockchainService) (fromAddress toAddress tokenId : String)
    (networkName : Option String) (b : Behavior) : Out Unit :=
  Out.throw svc "transferNFT not implemented: deploy and wire NFT contract"

/-- `createBlockchainPayment(fromAddress, toAddress, amount, description = '',
networkName = ...)` (source lines 126-129): unconditional stub. -/
def createBlockchainPayment (svc : BlockchainService)
    (fromAddress toAddress : String) (amount : Nat) (description : String)
    (networkName : Option String) (b : Behavior) : Out Unit :=
  Out.throw svc "createBlockchainPayment not implemented"

/-- `releaseBlockchainPayment(paymentId, networkName = ...)`
(source lines 131-134): unconditional stub. -/
def releaseBlockchainPayment (svc : BlockchainService) (paymentId : String)
    (networkName : Option String) (b : Behavior) : Out Unit :=
  Out.throw svc "releaseBlockchainPayment not implemented"

/-- The nested fee object returned by `getNetworkInfo` (source lines 149-153). -/
structure FeeDataStrings where
  gasPrice : Option String
  maxFeePerGas : Option String
  maxPriorityFeePerGas : Option String
deriving DecidableEq

/-- The object returned by `getNetworkInfo` (source lines 144-154). -/
structure NetworkInfoResult where
  name : String
  rpcUrl : String
  blockExplorer : String
  blockNumber : Nat
  feeData : FeeDataStrings
deriving DecidableEq

/-- `getNetworkInfo(networkName = this.defaultNetwork)`
(source lines 136-155): look up the registry entry without a check, resolve
the provider, issue `getBlockNumber` and `getFeeData` through
`Promise.all` - concurrently - and assemble the composite result (a
`TypeError` on `network.name` if the registry entry was absent). -/
def getNetworkInfo (svc : BlockchainService) (networkName : Option String)
    (b : Behavior) : Out NetworkInfoResult :=
  let nn := networkName.getD svc.defaultNetwork
  let network := networksGet svc.networks (jsToLowerCase nn)
  (getProviderOut svc (some nn)).andThen fun provider =>
    (par2
        (rpc svc (Call.getBlockNumber provider) (b.pb provider).blockNumber
          (b.pb provider).blockNumberDelay)
        (rpc svc (Call.getFeeData provider) (b.pb provider).feeData
          (b.pb provider).feeDataDelay)).andThen fun bnfd =>
      match network with
      | none => Out.throw svc "TypeError: cannot read name of undefined"
      | some net =>
          Out.pure svc
            { name := net.name, rpcUrl := net.rpcUrl, blockExplorer := net.blockExplorer
              blockNumber := bnfd.1
              feeData :=
                { gasPrice := bnfd.2.gasPrice.map natToString
                  maxFeePerGas := bnfd.2.maxFeePerGas.map natToString
                  maxPriorityFeePerGas := bnfd.2.maxPriorityFeePerGas.map natToString } }

/-- Value of a little-endian decimal digit list. -/
def ofDigits10 : List Nat → Nat
  | [] => 0
  | d :: ds => d + 10 * ofDigits10 ds

/-- Spec-side reading of a printed decimal digit string (most significant
digit first), used to state that the two balance representations are
mutually consistent: this is the number a reader obtains from the digits,
independently of how the string was produced. -/
def decimalDigitsVal (l : List Char) : Nat :=
  l.foldl (fun acc c => acc * 10 + (c.toNat - 48)) 0

theorem length_dropWhile_le' (p : α → Bool) (l : List α) :
    (l.dropWhile p).length ≤ l.length := by
  induction l with
  | nil => simp [List.dropWhile]
  | cons a t ih =>
    by_cases h : p a
    · simp only [List.dropWhile, h]
      simp only [List.length_cons]
      omega
    · simp [List.dropWhile, h]

theorem mem_of_mem_dropWhile' (p : α → Bool) (l : List α) (x : α)
    (h : x ∈ l.dropWhile p) : x ∈ l := by
  induction l with
  | nil => simp [List.dropWhile] at h
  | cons a t ih =>
    by_cases hp : p a
    · simp only [List.dropWhile, hp] at h
      exact List.mem_cons_of_mem a (ih h)
    · simp only [List.dropWhile, hp] at h
      exact h

theorem lt_ten_pow_self (n : Nat) : n < 10 ^ n :=
  Nat.lt_pow_self (by norm_num) n

theorem ofDigits10_toDigitsRev (fuel : Nat) :
    ∀ n : Nat, n < 10 ^ fuel → ofDigits10 (toDigitsRev fuel n) = n := by
  induction fuel with
  | zero =>
    intro n h
    simp only [pow_zero, Nat.lt_one_iff] at h
    simp [toDigitsRev, ofDigits10, h]
  | succ f ih =>
    intro n h
    by_cases hn : n = 0
    · simp [toDigitsRev, hn, ofDigits10]
    · have hdiv : n / 10 < 10 ^ f := by
        rw [Nat.div_lt_iff_lt_mul (by norm_num)]
        calc n < 10 ^ (f + 1) := h
          _ = 10 ^ f * 10 := by ring
      simp only [toDigitsRev, hn, if_false, ofDigits10, ih _ hdiv]
      omega

theorem toDigitsRev_lt_ten (fuel : Nat) :
    ∀ n d : Nat, d ∈ toDigitsRev fuel n → d < 10 := by
  induction fuel with
  | zero => intro n d h; simp [toDigitsRev] at h
  | succ f ih =>
    intro n d h
    by_cases hn : n = 0
    · simp [toDigitsRev, hn] at h
    · simp only [toDigitsRev, hn, if_false, List.mem_cons] at h
      rcases h with h | h
      · omega
      · exact ih _ _ h

theorem ofDigits10_toPaddedDigitsRev (fuel : Nat) :
    ∀ n : Nat, n < 10 ^ fuel → ofDigits10 (toPaddedDigitsRev fuel n) = n := by
  induction fuel with
  | zero =>
    intro n h
    simp only [pow_zero, Nat.lt_one_iff] at h
    simp [toPaddedDigitsRev, ofDigits10, h]
  | succ f ih =>
    intro n h
    have hdiv : n / 10 < 10 ^ f := by
      rw [Nat.div_lt_iff_lt_mul (by norm_num)]
      calc n < 10 ^ (f + 1) := h
        _ = 10 ^ f * 10 := by ring
    simp only [toPaddedDigitsRev, ofDigits10, ih _ hdiv]
    omega

theorem toPaddedDigitsRev_length (fuel : Nat) :
    ∀ n : Nat, (toPaddedDigitsRev fuel n).length = fuel := by
  induction fuel with
  | zero => intro n; rfl
  | succ f ih => intro n; simp [toPaddedDigitsRev, ih]

theorem toPaddedDigitsRev_lt_ten (fuel : Nat) :
    ∀ n d : Nat, d ∈ toPaddedDigitsRev fuel n → d < 10 := by
  induction fuel with
  | zero => intro n d h; simp [toPaddedDigitsRev] at h
  | succ f ih =>
    intro n d h
    simp only [toPaddedDigitsRev, List.mem_cons] at h
    rcases h with h | h
    · omega
    · exact ih _ _ h

theorem ofDigits10_dropZeros (l : List Nat) :
    ofDigits10 l
      = ofDigits10 (l.dropWhile (· == 0))
          * 10 ^ (l.length - (l.dropWhile (· == 0)).length) := by
  induction l with
  | nil => simp [ofDigits10, List.dropWhile]
  | cons d t ih =>
    by_cases hd : d = 0
    · subst hd
      have hle : (t.dropWhile (fun x => x == 0)).length ≤ t.length :=
        length_dropWhile_le' _ _
      have hdw : (0 :: t).dropWhile (fun x => x == 0) = t.dropWhile (fun x => x == 0) := by
        simp [List.dropWhile]
      rw [show ((0 :: t).dropWhile (· == 0)) = t.dropWhile (fun x => x == 0) from hdw]
      have hlen : (0 :: t).length - (t.dropWhile (fun x => x == 0)).length
          = (t.length - (t.dropWhile (fun x => x == 0)).length) + 1 := by
        simp only [List.length_cons]
        omega
      rw [hlen, pow_succ]
      have hv : ofDigits10 (0 :: t) = 10 * ofDigits10 t := by simp [ofDigits10]
      rw [hv, ih]
      ring
    · have hb : (d == 0) = false := by simpa using hd
      have hdw : (d :: t).dropWhile (fun x => x == 0) = d :: t := by
        simp [List.dropWhile, hb]
      rw [show ((d :: t).dropWhile (· == 0)) = d :: t from hdw]
      simp

theorem digitChar_val (d : Nat) (h : d < 10) : (digitChar d).toNat - 48 = d := by
  unfold digitChar
  interval_cases d <;> decide

theorem decimalDigitsVal_render (ds : List Nat) (h : ∀ d ∈ ds, d < 10) :
    ∀ a : Nat,
      List.foldl (fun acc c => acc * 10 + (c.toNat - 48)) a ((ds.map digitChar).reverse)
        = a * 10 ^ ds.length + ofDigits10 ds := by
  induction ds with
  | nil => intro a; simp [ofDigits10]
  | cons d t ih =>
    intro a
    have hd : d < 10 := h d (List.mem_cons_self d t)
    have ht : ∀ x ∈ t, x < 10 := fun x hx => h x (List.mem_cons_of_mem d hx)
    simp only [List.map_cons, List.reverse_cons, List.foldl_append, List.foldl_cons,
      List.foldl_nil]
    rw [ih ht a, digitChar_val d hd]
    simp only [ofDigits10, List.length_cons]
    ring

theorem decimalDigitsVal_natToString (n : Nat) :
    decimalDigitsVal (natToString n).data = n := by
  by_cases hn : n = 0
  · subst hn; decide
  · have hval := ofDigits10_toDigitsRev n n (lt_ten_pow_self n)
    have hdig : ∀ d ∈ toDigitsRev n n, d < 10 := fun d hd => toDigitsRev_lt_ten n n d hd
    unfold natToString
    rw [if_neg hn]
    show decimalDigitsVal ((toDigitsRev n n).reverse.map digitChar) = n
    rw [show ((toDigitsRev n n).reverse.map digitChar)
        = ((toDigitsRev n n).map digitChar).reverse from List.map_reverse _ _]
    unfold decimalDigitsVal
    rw [decimalDigitsVal_render _ hdig 0]
    simpa using hval

theorem formatEther_exact (n : Nat) :
    ∃ F : String,
      formatEther n = natToString (n / 10 ^ 18) ++ "." ++ F
        ∧ 1 ≤ F.length ∧ F.length ≤ 18
        ∧ decimalDigitsVal F.data * 10 ^ (18 - F.length) = n % 10 ^ 18 := by
  have hfrac : n % 10 ^ 18 < 10 ^ 18 := Nat.mod_lt _ (by norm_num)
  have hlen : (toPaddedDigitsRev 18 (n % 10 ^ 18)).length = 18 :=
    toPaddedDigitsRev_length _ _
  have hval : ofDigits10 (toPaddedDigitsRev 18 (n % 10 ^ 18)) = n % 10 ^ 18 :=
    ofDigits10_toPaddedDigitsRev _ _ hfrac
  have hdig : ∀ d ∈ toPaddedDigitsRev 18 (n % 10 ^ 18), d < 10 :=
    fun d hd => toPaddedDigitsRev_lt_ten _ _ d hd
  have hdrop := ofDigits10_dropZeros (toPaddedDigitsRev 18 (n % 10 ^ 18))
  have hdlen : ((toPaddedDigitsRev 18 (n % 10 ^ 18)).dropWhile (· == 0)).length
      ≤ (toPaddedDigitsRev 18 (n % 10 ^ 18)).length :=
    length_dropWhile_le' _ _
  cases ht : (toPaddedDigitsRev 18 (n % 10 ^ 18)).dropWhile (· == 0) with
  | nil =>
    have hz : n % 10 ^ 18 = 0 := by
      rw [← hval, hdrop, ht]
      simp [ofDigits10]
    refine ⟨"0", ?_, by decide, by decide, ?_⟩
    · unfold formatEther trimTrailingZerosLE
      rw [ht]
      rfl
    · rw [hz]
      decide
  | cons d t =>
    refine ⟨String.mk ((d :: t).reverse.map digitChar), ?_, ?_, ?_, ?_⟩
    · unfold formatEther trimTrailingZerosLE
      rw [ht]
      rfl
    · show 1 ≤ ((d :: t).reverse.map digitChar).length
      simp
    · show ((d :: t).reverse.map digitChar).length ≤ 18
      rw [ht] at hdlen
      rw [hlen] at hdlen
      simpa using hdlen
    · have hmem : ∀ x ∈ d :: t, x < 10 := by
        intro x hx
        exact hdig x (mem_of_mem_dropWhile' _ _ x (ht ▸ hx))
      show decimalDigitsVal ((d :: t).reverse.map digitChar)
          * 10 ^ (18 - ((d :: t).reverse.map digitChar).length) = n % 10 ^ 18
      rw [show ((d :: t).reverse.map digitChar)
          = ((d :: t).map digitChar).reverse from List.map_reverse _ _]
      unfold decimalDigitsVal
      rw [decimalDigitsVal_render _ hmem 0]
      rw [ht, hlen] at hdrop
      have hflen : (((d :: t).map digitChar).reverse).length = (d :: t).length := by
        simp
      rw [hflen]
      rw [← hval, hdrop]
      ring

/-- With an explicitly supplied non-empty key, `getProvider` reduces to the
lowercase lookup in `this.providers`. -/
theorem getProvider_some (svc : BlockchainService) (nn : String) (hne : nn ≠ "") :
    getProvider svc (some nn)
      = match providersGet svc.providers (jsToLowerCase nn) with
        | some p => Except.ok p
        | none => Except.error ("Network " ++ nn ++ " not supported") := by
  unfold getProvider jsOr
  simp [Option.getD, hne]

/-- The two registry objects have the same literal keys, so a key with a
provider entry also has a network entry. -/
theorem networksGet_of_providersGet (ns : Networks) (ps : Providers) (k : String)
    (p : ProviderId) (h : providersGet ps k = some p) :
    ∃ net, networksGet ns k = some net := by
  by_cases h1 : k = "ethereum"
  · exact ⟨ns.ethereum, by simp [networksGet, h1]⟩
  · by_cases h2 : k = "polygon"
    · exact ⟨ns.polygon, by simp [networksGet, h1, h2]⟩
    · by_cases h3 : k = "polygonMumbai"
      · exact ⟨ns.polygonMumbai, by simp [networksGet, h1, h2, h3]⟩
      · exfalso
        simp [providersGet, h1, h2, h3] at h

/-- A well-behaved upstream world: every call succeeds after one unit of
latency, every key is accepted by the wallet constructor. -/
def stdResponse : TxResponse := { hash := "0xdeadbeef", waitSpec := WaitSpec.never }

/-- Baseline per-provider oracle used in the concrete check cases. -/
def basePB : ProviderBehavior :=
  { blockNumber := Except.ok 19000000
    blockNumberDelay := 1
    feeData := Except.ok
      { gasPrice := some 30000000000
        maxFeePerGas := some 40000000000
        maxPriorityFeePerGas := some 2000000000 }
    feeDataDelay := 1
    balanceOf := fun _ => Except.ok 1000000000000000000
    balanceDelay := 1
    estimateGasFor := fun _ => Except.ok 21000
    estimateGasDelay := 1
    sendTx := fun _ => Except.ok stdResponse
    sendDelay := 1 }

/-- Every provider behaves like `basePB`, keys always valid. -/
def okBehavior : Behavior := { pb := fun _ => basePB, keyValid := fun _ => true }

/-- Like `okBehavior` except that every block-number call fails. -/
def failingBlockBehavior : Behavior :=
  { pb := fun _ => { basePB with blockNumber := Except.error "connection refused" }
    keyValid := fun _ => true }

/-- Like `okBehavior` except that gas estimation rejects every transaction
with a revert message. -/
def revertingBehavior : Behavior :=
  { pb := fun _ =>
      { basePB with estimateGasFor := fun _ =>
          Except.error "execution reverted: transfer amount exceeds balance" }
    keyValid := fun _ => true }

/-- The thrown unsupported-network message always starts with the letter N,
whatever the offending key was. -/
theorem unsupported_msg_head (nn : String) :
    ("Network " ++ nn ++ " not supported").data.head? = some 'N' := by
  rw [String.data_append, String.data_append]
  rfl

/-- A thrown error whose message does not start with the letter N is never
the unsupported-network error, whatever the offending key was. -/
theorem stub_err_ne_unsupported {α : Type} (m nn : String)
    (hm : m.data.head? ≠ some 'N') :
    (Except.error m : Except String α)
      ≠ Except.error ("Network " ++ nn ++ " not supported") := by
  intro h
  have hmm : m = "Network " ++ nn ++ " not supported" := by injection h
  rw [hmm] at hm
  exact hm (unsupported_msg_head nn)

/-- Claim C1: for every network key present in the static registry and for
every letter-casing variant of it, `getProvider` returns the same connection
as the canonical key, and resolution succeeds for each registered key.  The
code refutes this and the registry itself witnesses the slip: the key
`polygonMumbai` is registered - both its profile and its eagerly created
provider are in the constructor state - yet `getProvider` throws
`Network ... not supported` on the canonical spelling and on every other
casing of it, because the lookup lowercases the requested key while the
registry stores the key in camel case.  The registered connection is
unreachable, so the code contradicts its own registry. -/
theorem c1_registered_polygonMumbai_never_resolves :
    networksGet (mkBlockchainService Env.empty).networks "polygonMumbai"
        = some (mkBlockchainService Env.empty).networks.polygonMumbai
    ∧ providersGet (mkBlockchainService Env.empty).providers "polygonMumbai"
        = some ProviderId.polygonMumbai
    ∧ getProvider (mkBlockchainService Env.empty) (some "polygonMumbai")
        = Except.error "Network polygonMumbai not supported"
    ∧ getProvider (mkBlockchainService Env.empty) (some "polygonmumbai")
        = Except.error "Network polygonmumbai not supported"
    ∧ getProvider (mkBlockchainService Env.empty) (some "POLYGONMUMBAI")
        = Except.error "Network POLYGONMUMBAI not supported"
    ∧ getProvider (mkBlockchainService Env.empty) (some "PolygonMumbai")
        = Except.error "Network PolygonMumbai not supported" :=
  ⟨rfl, rfl, rfl, rfl, rfl, rfl⟩

/-- Claim C3: for every registered network, `getNetworkStatus` converts an
upstream block-number failure into a `status = error` record instead of
propagating, and reports `status = online` with the block height on
success.  The code refutes the universal claim at the registered network
`polygonMumbai`: the lowercased registry lookup fails before the try block
is entered, so the call throws `Network polygonMumbai not supported` no
matter how the upstream behaves - the same registry-normalisation slip as
in C1, contradicting the deliberate catch-all design of this method.  For
the reachable registered networks the claimed conversion does hold, as the
second and third conjuncts show on a concrete always-failing and a
succeeding upstream. -/
theorem c3_getNetworkStatus_throws_on_registered_polygonMumbai :
    (getNetworkStatus (mkBlockchainService Env.empty) (some "polygonMumbai")
        failingBlockBehavior).res
      = Except.error "Network polygonMumbai not supported"
    ∧ (getNetworkStatus (mkBlockchainService Env.empty) (some "polygon")
        failingBlockBehavior).res
      = Except.ok
          { status := "error"
            network :=
              { name := "Polygon Mainnet", rpcUrl := "https://polygon-rpc.com"
                blockExplorer := "https://polygonscan.com" }
            latestBlock := none, error := some "connection refused" }
    ∧ (getNetworkStatus (mkBlockchainService Env.empty) (some "polygon") okBehavior).res
      = Except.ok
          { status := "online"
            network :=
              { name := "Polygon Mainnet", rpcUrl := "https://polygon-rpc.com"
                blockExplorer := "https://polygonscan.com" }
            latestBlock := some 19000000, error := none } :=
  ⟨rfl, rfl, rfl⟩

/-- Claim C4: each of the five stub operations fails, for every input and
every upstream behaviour, with exactly its not-implemented message naming
the missing capability, and issues no upstream network call (empty trace,
zero latency). -/
theorem c4_stubs_always_not_implemented_no_network
    (svc : BlockchainService) (b : Behavior) (networkName : Option String)
    (crop recipient tokenId fromAddress toAddress description paymentId : String)
    (amount : Nat) :
    ((mintCropNFT svc crop recipient networkName b).res
        = Except.error "mintCropNFT not implemented: deploy and wire NFT contract"
      ∧ (mintCropNFT svc crop recipient networkName b).trace = []
      ∧ (mintCropNFT svc crop recipient networkName b).elapsed = 0)
    ∧ ((getNFTDetails svc tokenId networkName b).res
        = Except.error "getNFTDetails not implemented: deploy and wire NFT contract"
      ∧ (getNFTDetails svc tokenId networkName b).trace = []
      ∧ (getNFTDetails svc tokenId networkName b).elapsed = 0)
    ∧ ((transferNFT svc fromAddress toAddress tokenId networkName b).res
        = Except.error "transferNFT not implemented: deploy and wire NFT contract"
      ∧ (transferNFT svc fromAddress toAddress tokenId networkName b).trace = []
      ∧ (transferNFT svc fromAddress toAddress tokenId networkName b).elapsed = 0)
    ∧ ((createBlockchainPayment svc fromAddress toAddress amount description networkName b).res
        = Except.error "createBlockchainPayment not implemented"
      ∧ (createBlockchainPayment svc fromAddress toAddress amount description networkName b).trace = []
      ∧ (createBlockchainPayment svc fromAddress toAddress amount description networkName b).elapsed = 0)
    ∧ ((releaseBlockchainPayment svc paymentId networkName b).res
        = Except.error "releaseBlockchainPayment not implemented"
      ∧ (releaseBlockchainPayment svc paymentId networkName b).trace = []
      ∧ (releaseBlockchainPayment svc paymentId networkName b).elapsed = 0) :=
  ⟨⟨rfl, rfl, rfl⟩, ⟨rfl, rfl, rfl⟩, ⟨rfl, rfl, rfl⟩, ⟨rfl, rfl, rfl⟩, ⟨rfl, rfl, rfl⟩⟩

/-- Claim C8 counterexample: the empty string matches no registered network
profile (the registry lookup yields nothing for it), yet `getProvider`
returns the default-network connection instead of failing - the body
evaluates `networkName || this.defaultNetwork`, and the empty string is
falsy, so the unmatched key silently falls back to `polygon`. -/
theorem c8_counterexample_empty_key_resolves :
    networksGet (mkBlockchainService Env.empty).networks "" = none
    ∧ providersGet (mkBlockchainService Env.empty).providers "" = none
    ∧ getProvider (mkBlockchainService Env.empty) (some "")
        = Except.ok ProviderId.polygon :=
  ⟨rfl, rfl, rfl⟩

/-- Claim C8 as amended: for every NON-EMPTY key whose lowercase form has no
entry in the provider registry, `getProvider` fails with the
unsupported-network error - in particular it never produces a null or
undefined connection, the only non-failing outcome being `Except.ok` of an
eagerly constructed provider.  (The empty key is the one exception the
counterexample forces: it falls back to the default network.) -/
theorem c8_amended_unregistered_nonempty_key_fails
    (svc : BlockchainService) (nn : String) (hne : nn ≠ "")
    (h : providersGet svc.providers (jsToLowerCase nn) = none) :
    getProvider svc (some nn) = Except.error ("Network " ++ nn ++ " not supported") := by
  rw [getProvider_some svc nn hne, h]

/-- Witness for the amended C8 at the concrete unregistered key `solana`. -/
theorem c8_amended_unregistered_nonempty_key_fails_witness :
    (("solana" : String) ≠ ""
      ∧ providersGet (mkBlockchainService Env.empty).providers (jsToLowerCase "solana") = none)
    ∧ getProvider (mkBlockchainService Env.empty) (some "solana")
        = Except.error ("Network " ++ "solana" ++ " not supported") :=
  ⟨⟨by decide, rfl⟩,
    c8_amended_unregistered_nonempty_key_fails (mkBlockchainService Env.empty) "solana"
      (by decide) rfl⟩

/-- Claim C9: neither `createWallet` nor `sendTransaction` stores the
signing key (or a signer derived from it) in the gateway state, logs it, or
caches it: for every key, transaction, network selector and upstream
behaviour, the service state after the call is exactly the state before,
and the console log of the call is empty - on the success paths and on
every failure path alike. -/
theorem c9_signing_key_never_persisted_or_logged
    (svc : BlockchainService) (b : Behavior) (privateKey : String) (tx : Tx)
    (networkName : Option String) :
    (createWallet svc privateKey networkName b).post = svc
    ∧ (createWallet svc privateKey networkName b).log = []
    ∧ (sendTransaction svc tx privateKey networkName b).post = svc
    ∧ (sendTransaction svc tx privateKey networkName b).log = [] := by
  have hcw : ∀ nnn : Option String,
      (createWallet svc privateKey nnn b).post = svc
      ∧ (createWallet svc privateKey nnn b).log = [] := by
    intro nnn
    unfold createWallet getProviderOut
    cases h : getProvider svc (some (nnn.getD svc.defaultNetwork)) with
    | ok p =>
      by_cases hk : b.keyValid privateKey
      · simp [h, Out.andThen, Out.pure, hk]
      · simp [h, Out.andThen, Out.pure, Out.throw, hk]
    | error e => simp [h, Out.andThen, Out.pure, Out.throw]
  refine ⟨(hcw networkName).1, (hcw networkName).2, ?_, ?_⟩
  all_goals
    unfold sendTransaction
    unfold Out.andThen
    cases hres : (createWallet svc privateKey networkName b).res with
    | error e => simp [(hcw networkName).1, (hcw networkName).2]
    | ok wallet =>
      cases hsend : (b.pb wallet.provider).sendTx tx with
      | error e => simp [rpc, hsend, (hcw networkName).1, (hcw networkName).2]
      | ok txr => simp [rpc, hsend, Out.pure, (hcw networkName).1, (hcw networkName).2]

/-- Claim C10: each stub operation throws its not-implemented error before
any network resolution: even when the supplied key has no provider-registry
entry, the failure is the not-implemented message - never the
unsupported-network message - and no upstream call is issued. -/
theorem c10_stub_failure_precedes_network_resolution
    (svc : BlockchainService) (b : Behavior)
    (nn crop recipient tokenId fromAddress toAddress description paymentId : String)
    (amount : Nat)
    (hunreg : providersGet svc.providers (jsToLowerCase nn) = none) :
    ((mintCropNFT svc crop recipient (some nn) b).res
        = Except.error "mintCropNFT not implemented: deploy and wire NFT contract"
      ∧ (mintCropNFT svc crop recipient (some nn) b).res
        ≠ Except.error ("Network " ++ nn ++ " not supported")
      ∧ (mintCropNFT svc crop recipient (some nn) b).trace = [])
    ∧ ((getNFTDetails svc tokenId (some nn) b).res
        = Except.error "getNFTDetails not implemented: deploy and wire NFT contract"
      ∧ (getNFTDetails svc tokenId (some nn) b).res
        ≠ Except.error ("Network " ++ nn ++ " not supported")
      ∧ (getNFTDetails svc tokenId (some nn) b).trace = [])
    ∧ ((transferNFT svc fromAddress toAddress tokenId (some nn) b).res
        = Except.error "transferNFT not implemented: deploy and wire NFT contract"
      ∧ (transferNFT svc fromAddress toAddress tokenId (some nn) b).res
        ≠ Except.error ("Network " ++ nn ++ " not supported")
      ∧ (transferNFT svc fromAddress toAddress tokenId (some nn) b).trace = [])
    ∧ ((createBlockchainPayment svc fromAddress toAddress amount description (some nn) b).res
        = Except.error "createBlockchainPayment not implemented"
      ∧ (createBlockchainPayment svc fromAddress toAddress amount description (some nn) b).res
        ≠ Except.error ("Network " ++ nn ++ " not supported")
      ∧ (createBlockchainPayment svc fromAddress toAddress amount description (some nn) b).trace = [])
    ∧ ((releaseBlockchainPayment svc paymentId (some nn) b).res
        = Except.error "releaseBlockchainPayment not implemented"
      ∧ (releaseBlockchainPayment svc paymentId (some nn) b).res
        ≠ Except.error ("Network " ++ nn ++ " not supported")
      ∧ (releaseBlockchainPayment svc paymentId (some nn) b).trace = []) := by
  refine ⟨⟨rfl, ?_, rfl⟩, ⟨rfl, ?_, rfl⟩, ⟨rfl, ?_, rfl⟩, ⟨rfl, ?_, rfl⟩, ⟨rfl, ?_, rfl⟩⟩
  all_goals exact stub_err_ne_unsupported _ nn (by decide)

/-- Witness for C10 at the concrete unregistered key `solana`. -/
theorem c10_stub_failure_precedes_network_resolution_witness :
    providersGet (mkBlockchainService Env.empty).providers (jsToLowerCase "solana") = none
    ∧ ((mintCropNFT (mkBlockchainService Env.empty) "crop1" "0xfarmer" (some "solana") okBehavior).res
          = Except.error "mintCropNFT not implemented: deploy and wire NFT contract"
        ∧ (mintCropNFT (mkBlockchainService Env.empty) "crop1" "0xfarmer" (some "solana") okBehavior).res
          ≠ Except.error ("Network " ++ "solana" ++ " not supported")
        ∧ (mintCropNFT (mkBlockchainService Env.empty) "crop1" "0xfarmer" (some "solana") okBehavior).trace = [])
      ∧ ((getNFTDetails (mkBlockchainService Env.empty) "7" (some "solana") okBehavior).res
          = Except.error "getNFTDetails not implemented: deploy and wire NFT contract"
        ∧ (getNFTDetails (mkBlockchainService Env.empty) "7" (some "solana") okBehavior).res
          ≠ Except.error ("Network " ++ "solana" ++ " not supported")
        ∧ (getNFTDetails (mkBlockchainService Env.empty) "7" (some "solana") okBehavior).trace = [])
      ∧ ((transferNFT (mkBlockchainService Env.empty) "0xa" "0xb" "7" (some "solana") okBehavior).res
          = Except.error "transferNFT not implemented: deploy and wire NFT contract"
        ∧ (transferNFT (mkBlockchainService Env.empty) "0xa" "0xb" "7" (some "solana") okBehavior).res
          ≠ Except.error ("Network " ++ "solana" ++ " not supported")
        ∧ (transferNFT (mkBlockchainService Env.empty) "0xa" "0xb" "7" (some "solana") okBehavior).trace = [])
      ∧ ((createBlockchainPayment (mkBlockchainService Env.empty) "0xa" "0xb" 5 "d" (some "solana") okBehavior).res
          = Except.error "createBlockchainPayment not implemented"
        ∧ (createBlockchainPayment (mkBlockchainService Env.empty) "0xa" "0xb" 5 "d" (some "solana") okBehavior).res
          ≠ Except.error ("Network " ++ "solana" ++ " not supported")
        ∧ (createBlockchainPayment (mkBlockchainService Env.empty) "0xa" "0xb" 5 "d" (some "solana") okBehavior).trace = [])
      ∧ ((releaseBlockchainPayment (mkBlockchainService Env.empty) "pay9" (some "solana") okBehavior).res
          = Except.error "releaseBlockchainPayment not implemented"
        ∧ (releaseBlockchainPayment (mkBlockchainService Env.empty) "pay9" (some "solana") okBehavior).res
          ≠ Except.error ("Network " ++ "solana" ++ " not supported")
        ∧ (releaseBlockchainPayment (mkBlockchainService Env.empty) "pay9" (some "solana") okBehavior).trace = []) :=
  ⟨rfl,
    c10_stub_failure_precedes_network_resolution (mkBlockchainService Env.empty) okBehavior
      "solana" "crop1" "0xfarmer" "7" "0xa" "0xb" "d" "pay9" 5 rfl⟩

/-- Claim C5: whenever the network rejects gas estimation for a transaction
request - for any resolvable network key - `estimateGasCost` fails with the
upstream rejection message carried through unmodified: the thrown error is
exactly the upstream error, and only the estimation call was issued. -/
theorem c5_estimateGasCost_surfaces_rejection_unmodified
    (svc : BlockchainService) (b : Behavior) (nn : String) (p : ProviderId)
    (tx : Tx) (msg : String)
    (hp : getProvider svc (some nn) = Except.ok p)
    (hg : (b.pb p).estimateGasFor tx = Except.error msg) :
    (estimateGasCost svc tx (some nn) b).res = Except.error msg
    ∧ (estimateGasCost svc tx (some nn) b).trace = [Call.estimateGas p tx] := by
  constructor <;>
    simp [estimateGasCost, getProviderOut, hp, hg, Out.andThen, Out.pure, rpc]

/-- Witness for C5: on `polygon`, with an upstream that rejects estimation
with a revert message, the call fails with exactly that message. -/
theorem c5_estimateGasCost_surfaces_rejection_unmodified_witness :
    (getProvider (mkBlockchainService Env.empty) (some "polygon") = Except.ok ProviderId.polygon
      ∧ (revertingBehavior.pb ProviderId.polygon).estimateGasFor "0xrequest"
          = Except.error "execution reverted: transfer amount exceeds balance")
    ∧ (estimateGasCost (mkBlockchainService Env.empty) "0xrequest" (some "polygon") revertingBehavior).res
        = Except.error "execution reverted: transfer amount exceeds balance"
    ∧ (estimateGasCost (mkBlockchainService Env.empty) "0xrequest" (some "polygon") revertingBehavior).trace
        = [Call.estimateGas ProviderId.polygon "0xrequest"] :=
  ⟨⟨rfl, rfl⟩,
    c5_estimateGasCost_surfaces_rejection_unmodified (mkBlockchainService Env.empty)
      revertingBehavior "polygon" ProviderId.polygon "0xrequest"
      "execution reverted: transfer amount exceeds balance" rfl rfl⟩

/-- Claim C2 counterexample: the claim states that `estimateGasCost` issues
its gas-unit estimation and its fee-rate lookup concurrently, which in the
latency model means its latency is the maximum of the two call latencies.
At the concrete behaviour `okBehavior` (each call takes one unit) the
latency of `estimateGasCost` on `polygon` is 2 - the sum, not the maximum
of 1 and 1 - because the source awaits `estimateGas` before issuing
`getFeeData`. -/
theorem c2_counterexample_estimateGasCost_sequential :
    ¬ ((estimateGasCost (mkBlockchainService Env.empty) "0xrequest" (some "polygon") okBehavior).elapsed
        = max (okBehavior.pb ProviderId.polygon).estimateGasDelay
            (okBehavior.pb ProviderId.polygon).feeDataDelay) := by
  decide

/-- Claim C2 as amended: for every resolvable network, `getNetworkInfo`
does issue its block-height fetch and fee-data fetch concurrently (latency
equal to the maximum of the two call latencies, both calls in the trace),
but `estimateGasCost` issues its two calls sequentially: the fee lookup
starts only after gas estimation succeeds, so its latency is the sum of
the two call latencies. -/
theorem c2_amended_networkInfo_parallel_gasCost_sequential
    (svc : BlockchainService) (b : Behavior) (nn : String) (p : ProviderId)
    (tx : Tx) (gas : Nat)
    (hp : getProvider svc (some nn) = Except.ok p)
    (hg : (b.pb p).estimateGasFor tx = Except.ok gas) :
    (getNetworkInfo svc (some nn) b).elapsed
        = max (b.pb p).blockNumberDelay (b.pb p).feeDataDelay
    ∧ (getNetworkInfo svc (some nn) b).trace
        = [Call.getBlockNumber p, Call.getFeeData p]
    ∧ (estimateGasCost svc tx (some nn) b).elapsed
        = (b.pb p).estimateGasDelay + (b.pb p).feeDataDelay
    ∧ (estimateGasCost svc tx (some nn) b).trace
        = [Call.estimateGas p tx, Call.getFeeData p] := by
  refine ⟨?_, ?_, ?_, ?_⟩ <;>
    simp [getNetworkInfo, estimateGasCost, getProviderOut, hp, hg,
      Out.andThen, Out.pure, Out.throw, par2, rpc] <;>
    cases hbn : (b.pb p).blockNumber <;>
    cases hfd : (b.pb p).feeData <;>
    cases hnet : networksGet svc.networks (jsToLowerCase nn) <;>
    simp [hbn, hfd, hnet, Out.andThen, Out.pure, Out.throw, par2, rpc]

/-- Witness for the amended C2 on `polygon` with unit call latencies. -/
theorem c2_amended_networkInfo_parallel_gasCost_sequential_witness :
    (getProvider (mkBlockchainService Env.empty) (some "polygon") = Except.ok ProviderId.polygon
      ∧ (okBehavior.pb ProviderId.polygon).estimateGasFor "0xrequest" = Except.ok 21000)
    ∧ (getNetworkInfo (mkBlockchainService Env.empty) (some "polygon") okBehavior).elapsed
        = max (okBehavior.pb ProviderId.polygon).blockNumberDelay
            (okBehavior.pb ProviderId.polygon).feeDataDelay
    ∧ (getNetworkInfo (mkBlockchainService Env.empty) (some "polygon") okBehavior).trace
        = [Call.getBlockNumber ProviderId.polygon, Call.getFeeData ProviderId.polygon]
    ∧ (estimateGasCost (mkBlockchainService Env.empty) "0xrequest" (some "polygon") okBehavior).elapsed
        = (okBehavior.pb ProviderId.polygon).estimateGasDelay
            + (okBehavior.pb ProviderId.polygon).feeDataDelay
    ∧ (estimateGasCost (mkBlockchainService Env.empty) "0xrequest" (some "polygon") okBehavior).trace
        = [Call.estimateGas ProviderId.polygon "0xrequest", Call.getFeeData ProviderId.polygon] := by
  refine ⟨⟨rfl, rfl⟩, ?_⟩
  exact c2_amended_networkInfo_parallel_gasCost_sequential (mkBlockchainService Env.empty)
    okBehavior "polygon" ProviderId.polygon "0xrequest" 21000 rfl rfl

/-- Replace the behaviour of the `wait()` member of every transaction
response the upstream would return, leaving submission outcomes, hashes,
latencies and everything else unchanged.  Used to state that submission is
insensitive to how - or whether - confirmation waits would resolve. -/
def Behavior.setWait (b : Behavior) (w : WaitSpec) : Behavior :=
  { b with pb := fun p =>
      { b.pb p with sendTx := fun tx =>
          ((b.pb p).sendTx tx).map fun r => { hash := r.hash, waitSpec := w } } }

/-- Claim C6: once the network accepts the submission, `sendTransaction`
returns a handle carrying the transaction hash and the captured - but not
invoked - confirmation wait: the submission trace contains exactly the
submission call and no `waitForTx` call, and the returned hash and the
whole trace are unchanged under every replacement of the wait behaviour,
including one that never resolves (`WaitSpec.never`), so the submission
completes without blocking on confirmation. -/
theorem c6_sendTransaction_returns_without_waiting
    (svc : BlockchainService) (b : Behavior) (nn privateKey : String)
    (tx : Tx) (p : ProviderId) (txr : TxResponse)
    (hp : getProvider svc (some nn) = Except.ok p)
    (hk : b.keyValid privateKey = true)
    (hs : (b.pb p).sendTx tx = Except.ok txr) :
    (sendTransaction svc tx privateKey (some nn) b).res
        = Except.ok { hash := txr.hash, waitSpec := txr.waitSpec }
    ∧ (sendTransaction svc tx privateKey (some nn) b).trace
        = [Call.sendTransaction p tx]
    ∧ ∀ w : WaitSpec,
        (sendTransaction svc tx privateKey (some nn) (Behavior.setWait b w)).res
            = Except.ok { hash := txr.hash, waitSpec := w }
        ∧ (sendTransaction svc tx privateKey (some nn) (Behavior.setWait b w)).trace
            = [Call.sendTransaction p tx] := by
  refine ⟨?_, ?_, fun w => ⟨?_, ?_⟩⟩ <;>
    simp [sendTransaction, createWallet, getProviderOut, Behavior.setWait,
      hp, hk, hs, Out.andThen, Out.pure, rpc, Except.map]

/-- Witness for C6 on `polygon`, with an upstream whose accepted response
has a `wait()` that never resolves. -/
theorem c6_sendTransaction_returns_without_waiting_witness :
    (getProvider (mkBlockchainService Env.empty) (some "polygon") = Except.ok ProviderId.polygon
      ∧ okBehavior.keyValid "0xkey" = true
      ∧ (okBehavior.pb ProviderId.polygon).sendTx "0xrequest" = Except.ok stdResponse)
    ∧ (sendTransaction (mkBlockchainService Env.empty) "0xrequest" "0xkey" (some "polygon") okBehavior).res
        = Except.ok { hash := stdResponse.hash, waitSpec := stdResponse.waitSpec }
    ∧ (sendTransaction (mkBlockchainService Env.empty) "0xrequest" "0xkey" (some "polygon") okBehavior).trace
        = [Call.sendTransaction ProviderId.polygon "0xrequest"]
    ∧ ∀ w : WaitSpec,
        (sendTransaction (mkBlockchainService Env.empty) "0xrequest" "0xkey" (some "polygon")
            (Behavior.setWait okBehavior w)).res
          = Except.ok { hash := stdResponse.hash, waitSpec := w }
        ∧ (sendTransaction (mkBlockchainService Env.empty) "0xrequest" "0xkey" (some "polygon")
            (Behavior.setWait okBehavior w)).trace
          = [Call.sendTransaction ProviderId.polygon "0xrequest"] :=
  ⟨⟨rfl, rfl, rfl⟩,
    c6_sendTransaction_returns_without_waiting (mkBlockchainService Env.empty) okBehavior
      "polygon" "0xkey" "0xrequest" ProviderId.polygon stdResponse rfl rfl rfl⟩

/-- Claim C7: for every address and resolvable network (a key whose
lowercase form is in the provider registry), `getWalletBalance` returns the
minor-unit balance as a plain decimal string together with its exact
decimal conversion at unit scale 18, with no rounding: reading the digits
of the minor-unit string gives back exactly the upstream balance, and the
decimal string splits as integer part, dot, and a 1-to-18-digit fraction
whose digits scale back to exactly the same balance - so the two
representations are mutually consistent. -/
theorem c7_getWalletBalance_dual_exact_representation
    (svc : BlockchainService) (b : Behavior) (address nn : String)
    (p : ProviderId) (bal : Nat)
    (hp : providersGet svc.providers (jsToLowerCase nn) = some p)
    (hb : (b.pb p).balanceOf address = Except.ok bal) :
    ∃ r : BalanceResult,
      (getWalletBalance svc address (some nn) b).res = Except.ok r
      ∧ r.address = address
      ∧ r.balanceWei = natToString bal
      ∧ r.balanceEth = formatEther bal
      ∧ decimalDigitsVal r.balanceWei.data = bal
      ∧ ∃ F : String,
          r.balanceEth = natToString (bal / 10 ^ 18) ++ "." ++ F
          ∧ 1 ≤ F.length ∧ F.length ≤ 18
          ∧ decimalDigitsVal (natToString (bal / 10 ^ 18)).data * 10 ^ 18
              + decimalDigitsVal F.data * 10 ^ (18 - F.length) = bal := by
  have hne : nn ≠ "" := by
    intro h
    subst h
    have hnone : (none : Option ProviderId) = some p := hp
    exact Option.noConfusion hnone
  obtain ⟨net, hnet⟩ := networksGet_of_providersGet svc.networks svc.providers _ p hp
  have hgp : getProvider svc (some nn) = Except.ok p := by
    rw [getProvider_some svc nn hne, hp]
  have hres : (getWalletBalance svc address (some nn) b).res
      = Except.ok
          { address := address, network := net.name
            balanceWei := natToString bal, balanceEth := formatEther bal } := by
    simp [getWalletBalance, getProviderOut, hgp, hb, hnet, Out.andThen, Out.pure, rpc]
  obtain ⟨F, hF, hF1, hF2, hF3⟩ := formatEther_exact bal
  refine ⟨_, hres, rfl, rfl, rfl, decimalDigitsVal_natToString bal, F, hF, hF1, hF2, ?_⟩
  rw [decimalDigitsVal_natToString (bal / 10 ^ 18), hF3]
  have h10 : (10 : ℕ) ^ 18 = 1000000000000000000 := by norm_num
  rw [h10]
  omega

/-- Witness for C7 on the casing variant `POLYGON` of a registered network,
at the one-ether balance of the example in the claim. -/
theorem c7_getWalletBalance_dual_exact_representation_witness :
    (providersGet (mkBlockchainService Env.empty).providers (jsToLowerCase "POLYGON")
        = some ProviderId.polygon
      ∧ (okBehavior.pb ProviderId.polygon).balanceOf "0xabc"
        = Except.ok 1000000000000000000)
    ∧ ∃ r : BalanceResult,
        (getWalletBalance (mkBlockchainService Env.empty) "0xabc" (some "POLYGON") okBehavior).res
            = Except.ok r
        ∧ r.address = "0xabc"
        ∧ r.balanceWei = natToString 1000000000000000000
        ∧ r.balanceEth = formatEther 1000000000000000000
        ∧ decimalDigitsVal r.balanceWei.data = 1000000000000000000
        ∧ ∃ F : String,
            r.balanceEth = natToString (1000000000000000000 / 10 ^ 18) ++ "." ++ F
            ∧ 1 ≤ F.length ∧ F.length ≤ 18
            ∧ decimalDigitsVal (natToString (1000000000000000000 / 10 ^ 18)).data * 10 ^ 18
                + decimalDigitsVal F.data * 10 ^ (18 - F.length) = 1000000000000000000 :=
  ⟨⟨rfl, rfl⟩,
    c7_getWalletBalance_dual_exact_representation (mkBlockchainService Env.empty) okBehavior
      "0xabc" "POLYGON" ProviderId.polygon 1000000000000000000 rfl rfl⟩
